import Mathlib

/-!
Verification of the zenzefi_client local proxy against its specification.

The development shallowly embeds the Python sources of the repository:

* `src/core/proxy/cache_manager.py`   (`CacheManager`: LRU cache, `is_cacheable`)
* `src/core/proxy/content_rewriter.py` (`ContentRewriter`: URL rewriting, memoization)
* `src/core/proxy_manager.py`          (`ZenzefiProxy._is_browser`,
  `ZenzefiProxy._proxy_to_backend` header preparation, `ProxyManager.start`,
  `ProxyManager.stop`, `ProxyManager._logout_from_backend`)

Python strings are modelled by Lean `String` (all inputs of interest are
ASCII, where `Char.toLower` agrees with Python `str.lower`).  Python byte
strings produced by `str.encode("utf-8")` are modelled by the string itself,
since the code only ever round-trips `encode`/`decode`, which is lossless.
The `md5` hex digest used for fingerprints is modelled by an injective
fingerprint function (the code relies on the digest being deterministic and,
morally, collision free).  Network calls, the event loop and the port
utilities are modelled by explicit outcome parameters; the decision structure
of the Python code is translated verbatim.
-/

namespace Zenzefi

/-! ## Python string primitives

`pyIn p s` is Python `p in s` (substring containment), `pyReplace s old new`
is Python `s.replace(old, new)` (non-overlapping, left to right), over
`List Char`.  `replaceFuel` consumes at least one character per step, so a
fuel of `s.length` is always enough. -/

def isPrefixB : List Char → List Char → Bool
  | [], _ => true
  | _ :: _, [] => false
  | a :: p, b :: s => a == b && isPrefixB p s

def occursB (p : List Char) : List Char → Bool
  | [] => isPrefixB p []
  | b :: s => isPrefixB p (b :: s) || occursB p s

def replaceFuel (old new : List Char) : Nat → List Char → List Char
  | _, [] => []
  | 0, s => s
  | fuel + 1, b :: s =>
    if old ≠ [] ∧ isPrefixB old (b :: s) then
      new ++ replaceFuel old new fuel (List.drop old.length (b :: s))
    else
      b :: replaceFuel old new fuel s

def replaceL (old new s : List Char) : List Char :=
  replaceFuel old new s.length s

def pyIn (p s : String) : Bool :=
  occursB p.data s.data

def pyReplace (s old new : String) : String :=
  ⟨replaceL old.data new.data s.data⟩

def asciiLowerChar (ch : Char) : Char :=
  if ch.toNat ≥ 65 ∧ ch.toNat ≤ 90 then Char.ofNat (ch.toNat + 32) else ch

/-- Python `str.lower()` on the ASCII inputs of interest. -/
def pyLower (s : String) : String :=
  ⟨s.data.map asciiLowerChar⟩

def startsWithB (p s : String) : Bool :=
  isPrefixB p.data s.data

def endsWithB (p s : String) : Bool :=
  isPrefixB p.data.reverse s.data.reverse

/-! Relating the boolean substring scanner to `List.IsInfix`. -/

theorem isPrefixB_correct (p s : List Char) : isPrefixB p s = true ↔ p <+: s := by
  induction p generalizing s with
  | nil => simp [isPrefixB]
  | cons a p ih =>
    cases s with
    | nil => simp [isPrefixB]
    | cons b s =>
      simp only [isPrefixB, Bool.and_eq_true, beq_iff_eq, ih, List.cons_prefix_cons]

theorem occursB_correct (p s : List Char) : occursB p s = true ↔ p <:+: s := by
  induction s with
  | nil =>
    simp only [occursB, isPrefixB_correct]
    exact ⟨fun h => h.isInfix, fun h => (List.infix_nil.mp h) ▸ List.prefix_rfl⟩
  | cons b s ih =>
    simp only [occursB, Bool.or_eq_true, isPrefixB_correct, ih]
    exact (List.infix_cons_iff).symm

/-! ## CacheManager (src/core/proxy/cache_manager.py)

`collections.OrderedDict` is modelled as a `List (String × V)` in insertion
order: the head is the oldest (least-recently-used) entry, the last element
is the most-recently-used one.  `move_to_end(key)` removes the entry and
appends it at the back; `popitem(last=False)` removes the head. -/

def memberB {V : Type} (l : List (String × V)) (k : String) : Bool :=
  l.any (fun p => p.1 == k)

def lookupL {V : Type} : List (String × V) → String → Option V
  | [], _ => none
  | (a, v) :: t, k => if a == k then some v else lookupL t k

def removeKey {V : Type} : List (String × V) → String → List (String × V)
  | [], _ => []
  | (a, v) :: t, k => if a == k then t else (a, v) :: removeKey t k

structure CMState (V : Type) where
  cache : List (String × V)
  maxsize : Nat
  hits : Nat
  misses : Nat
deriving Repr, DecidableEq

def cmInit (V : Type) (maxsize : Nat) : CMState V :=
  { cache := [], maxsize := maxsize, hits := 0, misses := 0 }

/-- CacheManager.get: on a hit increment `hits`, move the entry to the
most-recently-used end and return it; on a miss increment `misses` and leave
the map untouched. -/
def cmGet {V : Type} (st : CMState V) (key : String) : Option V × CMState V :=
  match lookupL st.cache key with
  | some v =>
    (some v,
      { st with hits := st.hits + 1, cache := removeKey st.cache key ++ [(key, v)] })
  | none => (none, { st with misses := st.misses + 1 })

/-- CacheManager.put: `if key in cache: move_to_end(key)`, then assign the
value (which lands at the most-recently-used end), then evict the
least-recently-used entry (the head) if the size exceeds `maxsize`. -/
def cmPut {V : Type} (st : CMState V) (key : String) (v : V) : CMState V :=
  let c1 :=
    if memberB st.cache key then removeKey st.cache key ++ [(key, v)]
    else st.cache ++ [(key, v)]
  let c2 := if c1.length > st.maxsize then c1.tail else c1
  { st with cache := c2 }

/-- Key of the entry CacheManager.put evicts when it overflows: the head of
the order list, i.e. the least-recently-used entry. -/
def cmEvictedKey {V : Type} (st : CMState V) (key : String) (v : V) : Option String :=
  let c1 :=
    if memberB st.cache key then removeKey st.cache key ++ [(key, v)]
    else st.cache ++ [(key, v)]
  if c1.length > st.maxsize then (c1.head?).map Prod.fst else none

/-- CacheManager.is_cacheable: note that the Python code tests
`ext in path_lower` and `ct in content_type.lower()`, i.e. substring
containment, not extension/prefix matching. -/
def cacheableExtensions : List String :=
  [".js", ".css", ".png", ".jpg", ".jpeg", ".gif",
   ".svg", ".woff", ".woff2", ".ttf", ".ico", ".webp"]

def cacheableTypes : List String :=
  ["image/", "font/", "text/css", "application/javascript"]

def isCacheable (path contentType : String) : Bool :=
  cacheableExtensions.any (fun ext => pyIn ext (pyLower path)) ||
    cacheableTypes.any (fun ct => pyIn ct (pyLower contentType))

/-- Modelled from the spec (claim C6 wording): cacheable iff the path
EXTENSION is in the allow-list (the lowered path ends with it) or the
content type STARTS with one of the four markers.  Used only to compare the
claim with the source behaviour `isCacheable`. -/
def isCacheableClaim (path contentType : String) : Bool :=
  cacheableExtensions.any (fun ext => endsWithB ext (pyLower path)) ||
    cacheableTypes.any (fun ct => startsWithB ct (pyLower contentType))

/-! Operation sequences over the cache, for the LRU invariant. -/

inductive CacheOp (V : Type) where
  | put (key : String) (v : V)
  | get (key : String)

def cmStep {V : Type} (st : CMState V) : CacheOp V → CMState V
  | .put k v => cmPut st k v
  | .get k => (cmGet st k).2

def runOps {V : Type} (maxsize : Nat) (ops : List (CacheOp V)) : CMState V :=
  ops.foldl cmStep (cmInit V maxsize)

/-! ## ContentRewriter (src/core/proxy/content_rewriter.py)

The two pre-compiled regexes are embedded as deterministic leftmost-match
scanners with explicit fuel (each match consumes at least one character, so
`s.length` fuel is always enough):

* `_HTML_ATTR_PATTERN  = (href|src|action)=["\x27](/[^"\x27]*)["\x27]`
* `_CSS_URL_PATTERN    = url\(["\x27]?(/[^)"\x27]*)["\x27]?\)`

In both, the greedy character-class run is cut off exactly at the first
excluded character, and the optional/closing quote alternatives are
deterministic, so the scanners reproduce Python `re.sub`. -/

def quoteChar : Char := Char.ofNat 39

def isQuote (ch : Char) : Bool := ch == '"' || ch == quoteChar

def attrNames : List (List Char) := ["href".data, "src".data, "action".data]

/-- Match `attr=["\x27](/[^"\x27]*)["\x27]` for one given attribute name at the
start of `s`; returns the captured value `/run` and the rest after the
closing quote. -/
def matchAttrOne (attr s : List Char) : Option (List Char × List Char) :=
  if isPrefixB attr s then
    match List.drop attr.length s with
    | '=' :: q :: '/' :: s4 =>
      if isQuote q then
        let run := List.takeWhile (fun ch => !isQuote ch) s4
        match List.drop run.length s4 with
        | q2 :: rest => if isQuote q2 then some ('/' :: run, rest) else none
        | [] => none
      else none
    | _ => none
  else none

def matchAttrAt (s : List Char) : Option (List Char × List Char × List Char) :=
  match matchAttrOne "href".data s with
  | some (v, rest) => some ("href".data, v, rest)
  | none =>
    match matchAttrOne "src".data s with
    | some (v, rest) => some ("src".data, v, rest)
    | none =>
      match matchAttrOne "action".data s with
      | some (v, rest) => some ("action".data, v, rest)
      | none => none

/-- Substitution by `_HTML_ATTR_PATTERN`: every match is replaced by the
attribute name, `="`, the local URL, the captured value and a closing
double quote (the Python replacement template on line 89). -/
def htmlSubFuel (L : List Char) : Nat → List Char → List Char
  | _, [] => []
  | 0, s => s
  | fuel + 1, b :: s =>
    match matchAttrAt (b :: s) with
    | some (attr, v, rest) =>
      attr ++ ('=' :: '"' :: (L ++ v ++ ['"'])) ++ htmlSubFuel L fuel rest
    | none => b :: htmlSubFuel L fuel s

def rewriteHtml (localUrl content : String) : String :=
  ⟨htmlSubFuel localUrl.data content.data.length content.data⟩

/-- Match `url\(["\x27]?(/[^)"\x27]*)["\x27]?\)` at the start of `s`. -/
def matchCssAt (s : List Char) : Option (List Char × List Char) :=
  if isPrefixB "url(".data s then
    let s1 := List.drop 4 s
    let vstart :=
      match s1 with
      | q :: '/' :: s2 => if isQuote q then some ('/' :: s2) else none
      | '/' :: s2 => some ('/' :: s2)
      | _ => none
    match vstart with
    | none => none
    | some vs =>
      let run := List.takeWhile (fun ch => !(ch == ')') && !isQuote ch) vs.tail
      match List.drop run.length vs.tail with
      | ')' :: rest => some ('/' :: run, rest)
      | q2 :: ')' :: rest => if isQuote q2 then some ('/' :: run, rest) else none
      | _ => none
  else none

/-- Substitution by `_CSS_URL_PATTERN`: every match is replaced by `url(`,
the local URL, the captured value and `)` (the Python replacement template
on line 106). -/
def cssSubFuel (L : List Char) : Nat → List Char → List Char
  | _, [] => []
  | 0, s => s
  | fuel + 1, b :: s =>
    match matchCssAt (b :: s) with
    | some (v, rest) =>
      "url(".data ++ L ++ v ++ (')' :: cssSubFuel L fuel rest)
    | none => b :: cssSubFuel L fuel s

def rewriteCss (localUrl content : String) : String :=
  ⟨cssSubFuel localUrl.data content.data.length content.data⟩

/-- `ContentRewriter.__init__`: `upstream_url.replace("https://", "").replace("http://", "")`. -/
def upstreamHostOf (upstreamUrl : String) : String :=
  pyReplace (pyReplace upstreamUrl "https://" "") "http://" ""

/-- The pure string pipeline of `ContentRewriter.rewrite` (lines 56-68):
the four literal replacements, then the content-type dependent regex pass.
Note the WebSocket replacement targets are the hard-coded literal
`wss://127.0.0.1:61000` in the source. -/
def rewriteCore (upstreamUrl localUrl c t : String) : String :=
  let host := upstreamHostOf upstreamUrl
  let c1 := pyReplace c upstreamUrl localUrl
  let c2 := pyReplace c1 ("//" ++ host) ("//" ++ pyReplace localUrl "https://" "")
  let c3 := pyReplace c2 ("wss://" ++ host) "wss://127.0.0.1:61000"
  let c4 := pyReplace c3 ("ws://" ++ host) "wss://127.0.0.1:61000"
  if pyIn "text/html" t then rewriteHtml localUrl c4
  else if pyIn "text/css" t then rewriteCss localUrl c4
  else c4

/-- md5 hexdigest, modelled as an injective deterministic fingerprint. -/
def md5Model (s : String) : String := s

/-- `ContentRewriter._generate_cache_key`: full-content fingerprint below
10KB, else fingerprint of the first 1KB plus the length. -/
def genCacheKey (c t : String) : String :=
  if c.length < 10240 then md5Model (c ++ t)
  else md5Model (⟨c.data.take 1024⟩ ++ toString c.length ++ t)

/-- Cached value: `(content.encode("utf-8"), {}, 200)`; bytes are modelled by
the string itself (UTF-8 round trip). -/
structure CacheVal where
  body : String
  hdrs : List (String × String)
  status : Nat
deriving Repr, DecidableEq

/-- `ContentRewriter.rewrite` with a cache manager attached: look the
fingerprint of the INPUT up first and short-circuit on a hit; otherwise run
the string pipeline and, if the result is under 100KB, store it under the
fingerprint of the REWRITTEN content (the local variable `content` has been
reassigned by line 71). -/
def rewriteCached (upstreamUrl localUrl : String) (st : CMState CacheVal)
    (c t : String) : String × CMState CacheVal :=
  let key := genCacheKey c t
  match cmGet st ("rewrite_" ++ key) with
  | (some v, st1) => (v.body, st1)
  | (none, st1) =>
    let r := rewriteCore upstreamUrl localUrl c t
    if r.length < 102400 then
      (r, cmPut st1 ("rewrite_" ++ genCacheKey r t) ⟨r, [], 200⟩)
    else (r, st1)

/-- Upstream and local URLs as documented in the source
(`content_rewriter.py` lines 24-25) and built at `proxy_manager.py`
line 644 (`https://127.0.0.1:{self.local_port}` with the fixed port 61000). -/
def zUpstreamUrl : String := "https://zenzefi.melxiory.ru"

def zLocalUrl : String := "https://127.0.0.1:61000"

/-- `rewrite` with `cache_manager=None` (the constructor default): the pure
pipeline at the documented configuration. -/
def rewriteZ (c t : String) : String :=
  rewriteCore zUpstreamUrl zLocalUrl c t

def rewriteCachedZ (st : CMState CacheVal) (c t : String) :
    String × CMState CacheVal :=
  rewriteCached zUpstreamUrl zLocalUrl st c t

/-! ## ZenzefiProxy (src/core/proxy_manager.py)

`_is_browser` and the header-preparation part of `_proxy_to_backend`
(lines 224-264) are pure decisions over the request and the manager token
and are embedded directly.  A Python `None` or `""` User-Agent is modelled
by `""` (both are falsy in `if not user_agent`); an absent token is
`Option.none`, and Python truthiness of the token is `tokTruthy`. -/

def appSignatures : List String :=
  ["dts", "monaco", "mercedes", "diagnostic",
   "java", "python", "curl", "wget", "httpie",
   "postman", "insomnia", "restclient", "api",
   "bot", "crawler", "spider"]

def browserSignatures : List String :=
  ["mozilla", "chrome", "safari", "firefox",
   "edge", "opera", "msie", "trident",
   "chromium", "webkit"]

/-- `ZenzefiProxy._is_browser` (lines 73-118): empty User-Agent is an
application; an application signature anywhere in the lowered UA wins over
any browser signature; an unknown UA defaults to application. -/
def isBrowser (userAgent : String) : Bool :=
  if userAgent = "" then false
  else
    let ua := pyLower userAgent
    if appSignatures.any (fun a => pyIn a ua) then false
    else browserSignatures.any (fun b => pyIn b ua)

def tokTruthy : Option String → Bool
  | none => false
  | some s => !(s == "")

structure Req where
  method : String
  path : String
  headers : List (String × String)
  cookies : List (String × String)
deriving Repr, DecidableEq

/-- Python dict assignment `d[k] = v` on an insertion-ordered dict: update
the entry in place when the key exists (the dicts built here never hold
duplicate keys), else append. -/
def setH : List (String × String) → String → String → List (String × String)
  | [], k, v => [(k, v)]
  | p :: t, k, v => if p.1 == k then (k, v) :: t else p :: setH t k v

def skippedReqHeaders : List String :=
  ["host", "connection", "content-length", "transfer-encoding"]

/-- `request.headers.get("User-Agent", "")`; aiohttp headers are
case-insensitive. -/
def uaOf (r : Req) : String :=
  match r.headers.find? (fun p => pyLower p.1 == "user-agent") with
  | some p => p.2
  | none => ""

/-- Header preparation of `_proxy_to_backend` (lines 227-264): copy all
request headers except the hop-by-hop set, inject `X-Access-Token` for
application clients when the manager holds a token (and only then — when no
token is available the request is forwarded WITHOUT credentials, the code
merely logs a warning), and always set `X-Local-Url`.  No other header is
ever added: in particular there is no device-identifier header anywhere in
the repository. -/
def prepareBackendHeaders (token : Option String) (localUrl : String)
    (r : Req) : List (String × String) :=
  let filtered := r.headers.foldl
    (fun acc p =>
      if skippedReqHeaders.contains (pyLower p.1) then acc else setH acc p.1 p.2)
    []
  let withTok :=
    if !isBrowser (uaOf r) then
      match token with
      | some tok => if !(tok == "") then setH filtered "X-Access-Token" tok else filtered
      | none => filtered
    else filtered
  setH withTok "X-Local-Url" localUrl

/-- What `_proxy_to_backend` does with a request: either answer directly
with the cookie-bootstrap redirect (lines 157-218, only when the backend
validates the token with HTTP 200), or forward to the backend with the
prepared headers (the only other exit paths are the error responses of the
surrounding `try`, which also happen after the upstream call was issued). -/
inductive ProxyAction where
  | redirectSetCookie (token : String)
  | upstream (headers : List (String × String))
deriving Repr, DecidableEq

def rootPaths : List String := ["/", "/api/v1/proxy", "/api/v1/proxy/"]

def cookieOf (r : Req) (name : String) : Option String :=
  (r.cookies.find? (fun p => p.1 == name)).map Prod.snd

/-- Decision structure of `_proxy_to_backend` for one request.
`authStatus` is the HTTP status of the backend `authenticate` call (only
consulted on the cookie-bootstrap path; any non-200 continues with normal
proxying, as does an exception — modelled as status 0). -/
def proxyDecision (token : Option String) (authStatus : Nat)
    (localUrl : String) (r : Req) : ProxyAction :=
  let bootstrap :=
    r.method == "GET" && rootPaths.contains r.path && tokTruthy token &&
      (match token, cookieOf r "zenzefi_access_token" with
       | some tok, some bt => !(bt == tok)
       | _, none => true
       | none, some _ => true)
  match token with
  | some tok =>
    if bootstrap && authStatus == 200 then .redirectSetCookie tok
    else .upstream (prepareBackendHeaders token localUrl r)
  | none => .upstream (prepareBackendHeaders token localUrl r)

/-- Number of upstream calls issued for a batch of requests.  The source
keeps NO per-key in-flight registry and no response cache: the only shared
state touched by `_proxy_to_backend` is the statistics dictionary and a
counting semaphore (line 222) that bounds concurrency at 50 but never
collapses identical requests, so the number of upstream calls is the number
of requests that reach the forwarding branch, for every interleaving. -/
def goesUpstream (token : Option String) (authStatus : Nat)
    (localUrl : String) (r : Req) : Bool :=
  match proxyDecision token authStatus localUrl r with
  | .upstream _ => true
  | .redirectSetCookie _ => false

def countUpstream (token : Option String) (authStatus : Nat)
    (localUrl : String) (reqs : List Req) : Nat :=
  reqs.countP (goesUpstream token authStatus localUrl)

/-! ## ProxyManager lifecycle (src/core/proxy_manager.py lines 465-856)

External effects are modelled by an environment of outcomes; the decision
structure of `start`/`stop`/`_logout_from_backend` is translated verbatim.
`deviceIdAvailable` models whether `core.device_id.generate_device_id`
would succeed on this host — the lifecycle code never calls it, which is
exactly what claims C9 tests. -/

structure PMState where
  is_running : Bool
  current_token : Option String
  backend_url : Option String
  cookie_jar : Option String
  listenerBound : Bool
  last_error_type : Option String
deriving Repr, DecidableEq

def pmInit : PMState :=
  { is_running := false, current_token := none, backend_url := none,
    cookie_jar := none, listenerBound := false, last_error_type := none }

inductive LogoutOutcome where
  | ok200
  | non200 (status : Nat)
  | requestError
  | raisedOther
deriving Repr, DecidableEq

inductive LogoutResult where
  | skippedNoUrl
  | skippedNoJar
  | loggedOut
  | warnedNon200
  | warnedRequestError
  | warnedUnexpected
deriving Repr, DecidableEq

/-- `ProxyManager._logout_from_backend` (lines 759-805): early-returns when
no backend URL or no cookie jar is stored; every failure of the DELETE call
(non-200 status, request error, timeout, unexpected exception) is caught
inside the function and only logged — nothing propagates to the caller. -/
def logoutFromBackend (outcome : LogoutOutcome) (st : PMState) : LogoutResult :=
  if st.backend_url = none then .skippedNoUrl
  else if st.cookie_jar = none then .skippedNoJar
  else
    match outcome with
    | .ok200 => .loggedOut
    | .non200 _ => .warnedNon200
    | .requestError => .warnedRequestError
    | .raisedOther => .warnedUnexpected

/-- `ProxyManager.stop` (lines 807-856): returns immediately (clearing
nothing) when not running; otherwise performs the best-effort logout, shuts
the listener down and unconditionally purges token, backend URL and cookie
jar from memory.  The logout result is discarded, so the purge does not
depend on `outcome`. -/
def pmStop (outcome : LogoutOutcome) (st : PMState) : PMState :=
  if !st.is_running then st
  else
    let _logoutResult := logoutFromBackend outcome st
    { st with is_running := false, listenerBound := false,
              current_token := none, backend_url := none, cookie_jar := none }

structure StartEnv where
  portAvailable : Bool
  processFound : Bool
  killOk : Bool
  portFreeAfterKill : Bool
  serverStarts : Bool
  authOk : Bool
  logoutOutcome : LogoutOutcome
  deviceIdAvailable : Bool
deriving Repr, DecidableEq

/-- Port-conflict resolution of `start` (lines 523-563): the port is usable
if it was free, or the occupying process was found, killed, and the port
was then observed free. -/
def portResolved (env : StartEnv) : Bool :=
  if env.portAvailable then true
  else if env.processFound then env.killOk && env.portFreeAfterKill
  else false

/-- `ProxyManager.start` (lines 487-603): guard on already-running, falsy
token, falsy backend URL; then the token and the backend URL are stored in
memory BEFORE the port check and the server launch; failure paths after
that point return `False` without purging them (the auth-failure path calls
`stop()` on the by-then running server, which does purge).  The host
device-identifier (`env.deviceIdAvailable`) is never consulted. -/
def pmStart (env : StartEnv) (st : PMState) (backendUrl : String)
    (token : Option String) : Bool × PMState :=
  if st.is_running then (false, st)
  else if !tokTruthy token then (false, st)
  else if backendUrl == "" then (false, st)
  else
    let st1 := { st with current_token := token, backend_url := some backendUrl }
    if !portResolved env then
      (false, { st1 with last_error_type := some "port" })
    else if !env.serverStarts then (false, st1)
    else
      let st2 := { st1 with is_running := true, listenerBound := true }
      if env.authOk then
        let st3 := { st2 with cookie_jar := some "backend_response_cookies" }
        (true, st3)
      else (false, pmStop env.logoutOutcome st2)

/-! ## Lemmas about the cache model -/

theorem lookupL_some_memberB {V : Type} (l : List (String × V)) (k : String)
    (v : V) (h : lookupL l k = some v) : memberB l k = true := by
  induction l with
  | nil => simp [lookupL] at h
  | cons p t ih =>
    obtain ⟨a, w⟩ := p
    by_cases hak : (a == k) = true
    · simp [memberB, hak]
    · simp only [lookupL, hak, if_neg, Bool.false_eq_true, if_false] at h
      have := ih h
      simp only [memberB, List.any_cons, Bool.or_eq_true]
      right
      simpa [memberB] using this

theorem removeKey_length {V : Type} (l : List (String × V)) (k : String)
    (h : memberB l k = true) : (removeKey l k).length + 1 = l.length := by
  induction l with
  | nil => simp [memberB] at h
  | cons p t ih =>
    obtain ⟨a, w⟩ := p
    by_cases hak : (a == k) = true
    · simp [removeKey, hak]
    · have ht : memberB t k = true := by
        simp only [memberB, List.any_cons, Bool.or_eq_true] at h
        rcases h with h | h
        · exact absurd h hak
        · simpa [memberB] using h
      have := ih ht
      simp only [removeKey, hak, Bool.false_eq_true, if_false, List.length_cons]
      omega

theorem cmGet_cache_length {V : Type} (st : CMState V) (k : String) :
    ((cmGet st k).2).cache.length = st.cache.length := by
  unfold cmGet
  cases hl : lookupL st.cache k with
  | none => simp
  | some v =>
    have hm := lookupL_some_memberB st.cache k v hl
    have := removeKey_length st.cache k hm
    simp only [List.length_append, List.length_cons, List.length_nil]
    omega

theorem cmGet_maxsize {V : Type} (st : CMState V) (k : String) :
    ((cmGet st k).2).maxsize = st.maxsize := by
  unfold cmGet
  cases hl : lookupL st.cache k <;> simp

theorem cmPut_maxsize {V : Type} (st : CMState V) (k : String) (v : V) :
    (cmPut st k v).maxsize = st.maxsize := by
  unfold cmPut
  simp

theorem cmPut_cache_length_le {V : Type} (st : CMState V) (k : String) (v : V)
    (h : st.cache.length ≤ st.maxsize) :
    (cmPut st k v).cache.length ≤ st.maxsize := by
  unfold cmPut
  by_cases hm : memberB st.cache k = true
  · have hlen : (removeKey st.cache k ++ [(k, v)]).length = st.cache.length := by
      have := removeKey_length st.cache k hm
      simp only [List.length_append, List.length_cons, List.length_nil]
      omega
    simp only [hm, if_true, hlen]
    split
    · simpa [List.length_tail, hlen] using by omega
    · omega
  · simp only [hm, Bool.false_eq_true, if_false]
    have hlen : (st.cache ++ [(k, v)]).length = st.cache.length + 1 := by
      simp
    split
    · simp only [List.length_tail, hlen]
      omega
    · rename_i hgt
      rw [hlen] at hgt
      omega

theorem cmStep_maxsize {V : Type} (st : CMState V) (op : CacheOp V) :
    (cmStep st op).maxsize = st.maxsize := by
  cases op with
  | put k v => exact cmPut_maxsize st k v
  | get k => exact cmGet_maxsize st k

theorem cmStep_length_le {V : Type} (st : CMState V) (op : CacheOp V)
    (h : st.cache.length ≤ st.maxsize) :
    (cmStep st op).cache.length ≤ (cmStep st op).maxsize := by
  rw [cmStep_maxsize]
  cases op with
  | put k v => exact cmPut_cache_length_le st k v h
  | get k => rw [show (cmStep st (CacheOp.get k)) = (cmGet st k).2 from rfl,
      cmGet_cache_length]; exact h

theorem foldl_cmStep_length_le {V : Type} (ops : List (CacheOp V))
    (st : CMState V) (h : st.cache.length ≤ st.maxsize) :
    (ops.foldl cmStep st).cache.length ≤ (ops.foldl cmStep st).maxsize := by
  induction ops generalizing st with
  | nil => simpa using h
  | cons op t ih => exact ih (cmStep st op) (cmStep_length_le st op h)

theorem foldl_cmStep_maxsize {V : Type} (ops : List (CacheOp V))
    (st : CMState V) : (ops.foldl cmStep st).maxsize = st.maxsize := by
  induction ops generalizing st with
  | nil => rfl
  | cons op t ih => rw [List.foldl_cons, ih, cmStep_maxsize]

theorem runOps_length_le {V : Type} (m : Nat) (ops : List (CacheOp V)) :
    (runOps m ops).cache.length ≤ m := by
  have h1 := foldl_cmStep_length_le ops (cmInit V m) (by simp [cmInit])
  have h2 := foldl_cmStep_maxsize ops (cmInit V m)
  unfold runOps
  rw [show (cmInit V m).maxsize = m from rfl] at h2
  omega

theorem cmPut_evicts_lru {V : Type} (st : CMState V) (k : String) (v : V)
    (hmem : memberB st.cache k = false) (hfull : st.cache.length = st.maxsize)
    (hpos : 0 < st.maxsize) :
    (cmPut st k v).cache = st.cache.tail ++ [(k, v)]
    ∧ cmEvictedKey st k v = st.cache.head?.map Prod.fst := by
  cases hc : st.cache with
  | nil => rw [hc] at hfull; simp at hfull; omega
  | cons a t =>
    have hlen : ((a :: t) ++ [(k, v)]).length > st.maxsize := by
      rw [hc] at hfull
      simp only [List.length_append, List.length_cons, List.length_nil]
      simp only [List.length_cons] at hfull
      omega
    unfold cmPut cmEvictedKey
    rw [hc] at hmem ⊢
    simp only [hmem, Bool.false_eq_true, if_false, hlen, if_true, gt_iff_lt]
    simp [hlen]

theorem cmGet_miss {V : Type} (st : CMState V) (k : String)
    (h : lookupL st.cache k = none) :
    (cmGet st k).1 = none ∧ (cmGet st k).2.cache = st.cache := by
  simp [cmGet, h]

theorem cmGet_hit_recency {V : Type} (st : CMState V) (k : String) (v : V)
    (h : lookupL st.cache k = some v) :
    (cmGet st k).1 = some v
    ∧ (cmGet st k).2.cache = removeKey st.cache k ++ [(k, v)] := by
  simp [cmGet, h]

theorem cmPut_refresh {V : Type} (st : CMState V) (k : String) (v : V)
    (hm : memberB st.cache k = true) (hle : st.cache.length ≤ st.maxsize) :
    (cmPut st k v).cache = removeKey st.cache k ++ [(k, v)] := by
  have hlen : (removeKey st.cache k ++ [(k, v)]).length = st.cache.length := by
    have := removeKey_length st.cache k hm
    simp only [List.length_append, List.length_cons, List.length_nil]
    omega
  unfold cmPut
  simp only [hm, if_true]
  rw [if_neg]
  omega

/-- Operation sequence of the concrete LRU scenario of claim C1:
put(a), put(b), get(a), put(c) on a cache with maxsize 2. -/
def lruScenario : List (CacheOp Nat) :=
  [CacheOp.put "a" 0, CacheOp.put "b" 1, CacheOp.get "a", CacheOp.put "c" 2]

/-- C1: for every sequence of put/get operations the cache never exceeds
`maxsize`; a put of a new key on a full cache evicts exactly the head of
the recency order (the least-recently-accessed entry, since a get hit and a
repeated put move an entry to the most-recently-used end); a get miss
leaves the map untouched; and in the concrete scenario with maxsize 2,
after put(a), put(b), get(a), put(c) the cache holds a and c, with b
evicted. -/
theorem claim_C1_lru_cache (m : Nat) (ops : List (CacheOp Nat))
    (st st2 st3 st4 : CMState Nat) (k k2 k3 k4 : String) (v v3 : Nat) (v4 : Nat)
    (hmem : memberB st.cache k = false) (hfull : st.cache.length = st.maxsize)
    (hpos : 0 < st.maxsize)
    (hmiss : lookupL st2.cache k2 = none)
    (hm3 : memberB st3.cache k3 = true) (hle3 : st3.cache.length ≤ st3.maxsize)
    (hhit : lookupL st4.cache k4 = some v4) :
    (runOps m ops).cache.length ≤ m
    ∧ (cmPut st k v).cache = st.cache.tail ++ [(k, v)]
    ∧ cmEvictedKey st k v = st.cache.head?.map Prod.fst
    ∧ (cmGet st2 k2).2.cache = st2.cache
    ∧ (cmPut st3 k3 v3).cache = removeKey st3.cache k3 ++ [(k3, v3)]
    ∧ (cmGet st4 k4).2.cache = removeKey st4.cache k4 ++ [(k4, v4)]
    ∧ (runOps 2 lruScenario).cache.map Prod.fst = ["a", "c"]
    ∧ memberB (runOps 2 lruScenario).cache "b" = false := by
  refine ⟨runOps_length_le m ops,
    (cmPut_evicts_lru st k v hmem hfull hpos).1,
    (cmPut_evicts_lru st k v hmem hfull hpos).2,
    (cmGet_miss st2 k2 hmiss).2,
    cmPut_refresh st3 k3 v3 hm3 hle3,
    (cmGet_hit_recency st4 k4 v4 hhit).2,
    by decide, by decide⟩

/-- C1 witness: the hypotheses of `claim_C1_lru_cache` hold at a concrete
instantiation, and the conclusion follows by the theorem. -/
theorem claim_C1_lru_cache_witness :
    (memberB [("x", 5)] "y" = false ∧ ([("x", (5 : Nat))] : List (String × Nat)).length = 1
      ∧ 0 < 1 ∧ lookupL [("x", (5 : Nat))] "z" = none
      ∧ memberB [("x", (5 : Nat))] "x" = true
      ∧ ([("x", (5 : Nat))] : List (String × Nat)).length ≤ 1
      ∧ lookupL [("x", (5 : Nat))] "x" = some 5)
    ∧ ((runOps 2 lruScenario).cache.length ≤ 2
      ∧ (cmPut ⟨[("x", 5)], 1, 0, 0⟩ "y" 7).cache = ([("x", (5 : Nat))] : List (String × Nat)).tail ++ [("y", 7)]
      ∧ cmEvictedKey (⟨[("x", 5)], 1, 0, 0⟩ : CMState Nat) "y" 7 = ([("x", (5 : Nat))] : List (String × Nat)).head?.map Prod.fst
      ∧ (cmGet (⟨[("x", 5)], 1, 0, 0⟩ : CMState Nat) "z").2.cache = [("x", 5)]
      ∧ (cmPut (⟨[("x", 5)], 1, 0, 0⟩ : CMState Nat) "x" 9).cache = removeKey [("x", 5)] "x" ++ [("x", 9)]
      ∧ (cmGet (⟨[("x", 5)], 1, 0, 0⟩ : CMState Nat) "x").2.cache = removeKey [("x", 5)] "x" ++ [("x", 5)]
      ∧ (runOps 2 lruScenario).cache.map Prod.fst = ["a", "c"]
      ∧ memberB (runOps 2 lruScenario).cache "b" = false) :=
  ⟨⟨by decide, by decide, by decide, by decide, by decide, by decide, by decide⟩,
    claim_C1_lru_cache 2 lruScenario ⟨[("x", 5)], 1, 0, 0⟩ ⟨[("x", 5)], 1, 0, 0⟩
      ⟨[("x", 5)], 1, 0, 0⟩ ⟨[("x", 5)], 1, 0, 0⟩ "y" "z" "x" "x" 7 9 5
      (by decide) (by decide) (by decide) (by decide) (by decide) (by decide)
      (by decide)⟩

/-- C6 counterexample: `is_cacheable` tests substring containment, not the
extension / content-type prefix the claim states: the path `/app.js.map`
has extension `.map` (not in the allow-list) and a content type starting
with none of the four markers, yet the code returns true because the
substring `.js` occurs inside the path. -/
theorem claim_C6_counterexample :
    isCacheable "/app.js.map" "application/octet-stream" = true
    ∧ isCacheableClaim "/app.js.map" "application/octet-stream" = false := by
  decide

/-- C6 amended: `is_cacheable(path, contentType)` is true iff one of the
listed extensions occurs as a substring ANYWHERE in the lowercased path, or
one of `image/`, `font/`, `text/css`, `application/javascript` occurs as a
substring ANYWHERE in the lowercased content type; the two particular
examples of the claim do hold. -/
theorem claim_C6_cacheable_substring (path contentType : String) :
    (isCacheable path contentType = true ↔
      ((∃ ext ∈ cacheableExtensions, ext.data <:+: (pyLower path).data)
        ∨ (∃ ct ∈ cacheableTypes, ct.data <:+: (pyLower contentType).data)))
    ∧ isCacheable "/app.js" "application/javascript" = true
    ∧ isCacheable "/api/data" "application/json" = false := by
  refine ⟨?_, by decide, by decide⟩
  simp only [isCacheable, Bool.or_eq_true, List.any_eq_true, pyIn,
    occursB_correct]

/-- C8: the claim (and the dedicated WebSocket replacements on lines 61-62
of content_rewriter.py) say `ws://host` always becomes secure
`wss://` + local host.  But the protocol-relative replacement on line 58
runs first and consumes the `//host` part, so an insecure `ws://` URL keeps
its insecure scheme, and the dedicated `ws://`/`wss://` replacements can
never fire.  (`wss://host` still comes out right, by the same line 58.) -/
theorem claim_C8_ws_scheme_preserved :
    rewriteZ "ws://zenzefi.melxiory.ru" "text/plain" = "ws://127.0.0.1:61000"
    ∧ rewriteZ "ws://zenzefi.melxiory.ru" "text/plain" ≠ "wss://127.0.0.1:61000"
    ∧ rewriteZ "wss://zenzefi.melxiory.ru" "text/plain" = "wss://127.0.0.1:61000" := by
  refine ⟨by decide, by decide, by decide⟩

/-! ## Memoization lemmas for `rewriteCached` -/

/-- First `rewrite` call on an empty cache (the shared CacheManager is
created with the default maxsize 100): the input fingerprint misses, the
pipeline runs, and a sub-100KB result is stored under the fingerprint of
the REWRITTEN content. -/
theorem rewriteCached_firstCall (U L c t : String)
    (hsmall : (rewriteCore U L c t).length < 102400) :
    rewriteCached U L (cmInit CacheVal 100) c t =
      (rewriteCore U L c t,
        { cache := [("rewrite_" ++ genCacheKey (rewriteCore U L c t) t,
            ⟨rewriteCore U L c t, [], 200⟩)],
          maxsize := 100, hits := 0, misses := 1 }) := by
  unfold rewriteCached
  simp [cmGet, cmInit, lookupL, hsmall, cmPut, memberB]

/-- Calling `rewrite` again with the REWRITTEN content of a first call hits
the stored entry and returns it unchanged. -/
theorem rewriteCached_hit_rewritten (U L c t : String)
    (hsmall : (rewriteCore U L c t).length < 102400) :
    rewriteCached U L ((rewriteCached U L (cmInit CacheVal 100) c t).2)
        (rewriteCore U L c t) t
      = (rewriteCore U L c t,
        { cache := [("rewrite_" ++ genCacheKey (rewriteCore U L c t) t,
            ⟨rewriteCore U L c t, [], 200⟩)],
          maxsize := 100, hits := 1, misses := 1 }) := by
  rw [rewriteCached_firstCall U L c t hsmall]
  unfold rewriteCached
  simp [cmGet, lookupL, removeKey]

/-- C5 counterexample: at the concrete input
`c = "https://zenzefi.melxiory.ru"`, `t = "text/plain"` (rewritten to the
local origin, so the content changes), the result is NOT stored under the
fingerprint of `(c, t)`, and a second identical call `rewrite(c, t)` does
not hit the cache (the hit counter stays 0), contradicting the claim. -/
theorem claim_C5_counterexample :
    lookupL ((rewriteCachedZ (cmInit CacheVal 100)
          "https://zenzefi.melxiory.ru" "text/plain").2).cache
        ("rewrite_" ++ genCacheKey "https://zenzefi.melxiory.ru" "text/plain")
      = none
    ∧ (rewriteCachedZ ((rewriteCachedZ (cmInit CacheVal 100)
          "https://zenzefi.melxiory.ru" "text/plain").2)
        "https://zenzefi.melxiory.ru" "text/plain").2.hits = 0 := by
  decide

/-- C5 amended: `rewrite` does look the fingerprint of `(c, t)` up before
any string work and short-circuits on a hit, and sub-100KB results are
stored back — but under the fingerprint of the REWRITTEN content, not of
the input.  Hence a repeated call with the rewritten content hits, while a
repeated call with the original content misses whenever the two
fingerprints differ. -/
theorem claim_C5_memo_keyed_by_result (c t : String)
    (hsmall : (rewriteZ c t).length < 102400)
    (hkeys : ("rewrite_" ++ genCacheKey c t : String)
      ≠ "rewrite_" ++ genCacheKey (rewriteZ c t) t) :
    lookupL ((rewriteCachedZ (cmInit CacheVal 100) c t).2).cache
        ("rewrite_" ++ genCacheKey (rewriteZ c t) t)
      = some ⟨rewriteZ c t, [], 200⟩
    ∧ (rewriteCachedZ ((rewriteCachedZ (cmInit CacheVal 100) c t).2)
        (rewriteZ c t) t).1 = rewriteZ c t
    ∧ (rewriteCachedZ ((rewriteCachedZ (cmInit CacheVal 100) c t).2)
        (rewriteZ c t) t).2.hits = 1
    ∧ (rewriteCachedZ ((rewriteCachedZ (cmInit CacheVal 100) c t).2)
        c t).2.hits = 0 := by
  simp only [rewriteCachedZ, rewriteZ] at hsmall hkeys ⊢
  have h1 := rewriteCached_firstCall zUpstreamUrl zLocalUrl c t hsmall
  have h2 := rewriteCached_hit_rewritten zUpstreamUrl zLocalUrl c t hsmall
  have hbeq : (("rewrite_" ++ genCacheKey (rewriteCore zUpstreamUrl zLocalUrl c t) t : String)
      == ("rewrite_" ++ genCacheKey c t : String)) = false := by
    rw [beq_eq_false_iff_ne]
    exact fun h => hkeys h.symm
  refine ⟨?_, ?_, ?_, ?_⟩
  · rw [h1]
    simp [lookupL]
  · rw [h2]
  · rw [h2]
  · rw [h1]
    unfold rewriteCached
    simp only [cmGet, lookupL, hbeq, Bool.false_eq_true, if_false]
    split <;> simp [cmPut]

/-- C5 witness: the hypotheses of `claim_C5_memo_keyed_by_result` hold at
the concrete input of the counterexample. -/
theorem claim_C5_memo_keyed_by_result_witness :
    ((rewriteZ "https://zenzefi.melxiory.ru" "text/plain").length < 102400
      ∧ ("rewrite_" ++ genCacheKey "https://zenzefi.melxiory.ru" "text/plain" : String)
        ≠ "rewrite_" ++ genCacheKey
            (rewriteZ "https://zenzefi.melxiory.ru" "text/plain") "text/plain")
    ∧ (rewriteCachedZ ((rewriteCachedZ (cmInit CacheVal 100)
          "https://zenzefi.melxiory.ru" "text/plain").2)
        (rewriteZ "https://zenzefi.melxiory.ru" "text/plain") "text/plain").1
      = rewriteZ "https://zenzefi.melxiory.ru" "text/plain" :=
  ⟨⟨by decide, by decide⟩,
    (claim_C5_memo_keyed_by_result "https://zenzefi.melxiory.ru" "text/plain"
      (by decide) (by decide)).2.1⟩

/-- C7 counterexample: without a cache manager (the constructor default),
rewriting is NOT idempotent for HTML content.  In
`href="/xsrc="/a"` the first pass matches `href="/xsrc="` (the greedy value
run ends at the second double quote), and splicing the local origin after
the opening quote re-exposes `src="/a"`, which only the second pass
rewrites.  So `rewrite(rewrite(c, t), t) ≠ rewrite(c, t)`. -/
theorem claim_C7_counterexample :
    rewriteZ (rewriteZ "href=\"/xsrc=\"/a\"" "text/html") "text/html"
      ≠ rewriteZ "href=\"/xsrc=\"/a\"" "text/html" := by
  decide

/-- C7 amended: idempotence does hold when the shared cache manager is
attached (as in the running proxy) and the rewritten result is under 100KB:
the first call stores its result under the fingerprint of the rewritten
content, so the second call — whose input IS that rewritten content — hits
that entry and returns it verbatim.  Without the cache the HTML regex pass
is not idempotent (`claim_C7_counterexample`). -/
theorem claim_C7_idempotent_via_cache (c t : String)
    (hsmall : (rewriteZ c t).length < 102400) :
    (rewriteCachedZ ((rewriteCachedZ (cmInit CacheVal 100) c t).2)
        ((rewriteCachedZ (cmInit CacheVal 100) c t).1) t).1
      = (rewriteCachedZ (cmInit CacheVal 100) c t).1 := by
  simp only [rewriteCachedZ, rewriteZ] at hsmall ⊢
  have h1 := rewriteCached_firstCall zUpstreamUrl zLocalUrl c t hsmall
  have h2 := rewriteCached_hit_rewritten zUpstreamUrl zLocalUrl c t hsmall
  have e1 : (rewriteCached zUpstreamUrl zLocalUrl (cmInit CacheVal 100) c t).1
      = rewriteCore zUpstreamUrl zLocalUrl c t := by rw [h1]
  have e2 : (rewriteCached zUpstreamUrl zLocalUrl
        (rewriteCached zUpstreamUrl zLocalUrl (cmInit CacheVal 100) c t).2
        (rewriteCore zUpstreamUrl zLocalUrl c t) t).1
      = rewriteCore zUpstreamUrl zLocalUrl c t := by rw [h2]
  rw [e1, e2]

/-- C7 witness: the size hypothesis holds at a concrete HTML input whose
rewrite changes the content, and the cached second call still returns the
first result. -/
theorem claim_C7_idempotent_via_cache_witness :
    (rewriteZ "href=\"/login\"" "text/html").length < 102400
    ∧ (rewriteCachedZ ((rewriteCachedZ (cmInit CacheVal 100)
          "href=\"/login\"" "text/html").2)
        ((rewriteCachedZ (cmInit CacheVal 100) "href=\"/login\"" "text/html").1)
        "text/html").1
      = (rewriteCachedZ (cmInit CacheVal 100) "href=\"/login\"" "text/html").1 :=
  ⟨by decide, claim_C7_idempotent_via_cache "href=\"/login\"" "text/html" (by decide)⟩

/-! ## Lemmas about header dictionaries -/

theorem lookupL_setH_self (l : List (String × String)) (k v : String) :
    lookupL (setH l k v) k = some v := by
  induction l with
  | nil => simp [setH, lookupL]
  | cons p t ih =>
    obtain ⟨a, w⟩ := p
    by_cases hak : (a == k) = true
    · simp [setH, hak, lookupL]
    · simp only [setH, hak, Bool.false_eq_true, if_false, lookupL]
      exact ih

theorem lookupL_setH_ne (l : List (String × String)) (k k2 v : String)
    (h : ¬ k = k2) : lookupL (setH l k v) k2 = lookupL l k2 := by
  have hk2 : (k == k2) = false := by simpa using h
  induction l with
  | nil => simp [setH, lookupL, hk2]
  | cons p t ih =>
    obtain ⟨a, w⟩ := p
    by_cases hak : (a == k) = true
    · have hak2 : (a == k2) = false := by
        have : a = k := eq_of_beq hak
        simpa [this] using h
      simp [setH, hak, lookupL, hk2, hak2]
    · by_cases hak2 : (a == k2) = true
      · simp [setH, hak, lookupL, hak2]
      · simp only [setH, hak, Bool.false_eq_true, if_false, lookupL, hak2]
        exact ih

theorem memberB_setH (l : List (String × String)) (k k2 v : String) :
    memberB (setH l k v) k2 = (memberB l k2 || (k == k2)) := by
  induction l with
  | nil => simp [setH, memberB]
  | cons p t ih =>
    obtain ⟨a, w⟩ := p
    by_cases hak : (a == k) = true
    · have hae : a = k := eq_of_beq hak
      subst hae
      simp only [setH, hak, if_true, memberB, List.any_cons]
      cases hk2 : (a == k2) <;> cases hm : t.any (fun p => p.1 == k2) <;> simp
    · simp only [setH, hak, Bool.false_eq_true, if_false, memberB, List.any_cons]
      have := ih
      simp only [memberB] at this
      rw [this]
      cases hk2 : (a == k2) <;> simp

/-- Keys never mentioned in the request survive the copy loop as absent:
the header dictionary sent to the backend only contains keys copied from
the request or explicitly set by the engine. -/
theorem memberB_copyLoop_absent (hs : List (String × String)) (k : String)
    (h : memberB hs k = false) :
    memberB (hs.foldl
      (fun acc p =>
        if skippedReqHeaders.contains (pyLower p.1) then acc else setH acc p.1 p.2)
      []) k = false := by
  have hall : ∀ p ∈ hs, (p.1 == k) = false := by
    intro p hp
    by_contra hc
    have : memberB hs k = true := by
      simp only [memberB, List.any_eq_true]
      exact ⟨p, hp, by simpa using hc⟩
    simp [this] at h
  have main : ∀ (l : List (String × String)) (acc : List (String × String)),
      (∀ p ∈ l, (p.1 == k) = false) → memberB acc k = false →
      memberB (l.foldl
        (fun acc p =>
          if skippedReqHeaders.contains (pyLower p.1) then acc else setH acc p.1 p.2)
        acc) k = false := by
    intro l
    induction l with
    | nil => intro acc _ hacc; simpa using hacc
    | cons p t ih =>
      intro acc hl hacc
      simp only [List.foldl_cons]
      by_cases hskip : skippedReqHeaders.contains (pyLower p.1) = true
      · rw [if_pos hskip]
        exact ih acc (fun q hq => hl q (by simp [hq])) hacc
      · rw [if_neg hskip]
        refine ih _ (fun q hq => hl q (by simp [hq])) ?_
        rw [memberB_setH, hacc, hl p (by simp)]
        rfl
  exact main hs [] hall (by simp [memberB])

/-- A plain static-asset GET request with a browser User-Agent, used as the
identical request of claim C2. -/
def reqAppJs : Req :=
  { method := "GET", path := "/app.js",
    headers := [("User-Agent", "Mozilla/5.0")], cookies := [] }

/-- C2 counterexample: two identical GET requests to a cold engine produce
TWO upstream calls, not one — `_proxy_to_backend` keeps no response cache
and no in-flight registry, so nothing collapses identical requests. -/
theorem claim_C2_counterexample :
    countUpstream (some "tok") 200 zLocalUrl [reqAppJs, reqAppJs] = 2
    ∧ countUpstream (some "tok") 200 zLocalUrl [reqAppJs, reqAppJs] ≠ 1 := by
  decide

/-- C2 amended: every request that reaches the forwarding branch issues its
own upstream call; N identical GET requests produce N upstream calls (the
semaphore on line 222 only bounds concurrency at 50, it never deduplicates,
and no request ever waits for another). -/
theorem claim_C2_no_dedup (token : Option String) (authStatus : Nat)
    (localUrl : String) (r : Req) (n : Nat)
    (h : goesUpstream token authStatus localUrl r = true) :
    countUpstream token authStatus localUrl (List.replicate n r) = n := by
  induction n with
  | zero => rfl
  | succ k ih =>
    unfold countUpstream at ih ⊢
    rw [List.replicate_succ, List.countP_cons, ih, h]
    simp [Nat.add_comm]

/-- C2 witness: three identical requests produce three upstream calls. -/
theorem claim_C2_no_dedup_witness :
    goesUpstream (some "tok") 200 zLocalUrl reqAppJs = true
    ∧ countUpstream (some "tok") 200 zLocalUrl (List.replicate 3 reqAppJs) = 3 :=
  ⟨by decide, claim_C2_no_dedup (some "tok") 200 zLocalUrl reqAppJs 3 (by decide)⟩

/-- Application-classified request (no User-Agent header at all) used for
claim C3. -/
def reqApp : Req :=
  { method := "GET", path := "/data", headers := [], cookies := [] }

/-- C3 counterexample: for an application-classified request with a
configured token the engine attaches `X-Access-Token` but NO
device-identifier header (none exists anywhere in the repository), and
forwards the request; with no token available it forwards WITHOUT any
credential instead of aborting with an internal error. -/
theorem claim_C3_counterexample :
    lookupL (prepareBackendHeaders (some "tok") zLocalUrl reqApp) "X-Access-Token"
      = some "tok"
    ∧ memberB (prepareBackendHeaders (some "tok") zLocalUrl reqApp) "X-Device-Id"
      = false
    ∧ proxyDecision (some "tok") 200 zLocalUrl reqApp
      = .upstream (prepareBackendHeaders (some "tok") zLocalUrl reqApp)
    ∧ memberB (prepareBackendHeaders none zLocalUrl reqApp) "X-Access-Token"
      = false
    ∧ proxyDecision none 200 zLocalUrl reqApp
      = .upstream (prepareBackendHeaders none zLocalUrl reqApp) := by
  decide

/-- C3 amended: browser-classified requests never get an injected
`X-Access-Token`; application-classified requests get `X-Access-Token`
exactly when the manager holds a non-empty token, and are otherwise
forwarded without credentials (never aborted); no request ever gets a
device-identifier header the caller did not itself send. -/
theorem claim_C3_credential_routing (token : Option String) (localUrl : String)
    (r : Req) :
    (isBrowser (uaOf r) = true → memberB r.headers "X-Access-Token" = false →
      memberB (prepareBackendHeaders token localUrl r) "X-Access-Token" = false)
    ∧ (∀ tok : String, isBrowser (uaOf r) = false → token = some tok → ¬ tok = "" →
      lookupL (prepareBackendHeaders token localUrl r) "X-Access-Token" = some tok)
    ∧ (isBrowser (uaOf r) = false → token = none →
      memberB r.headers "X-Access-Token" = false →
      memberB (prepareBackendHeaders token localUrl r) "X-Access-Token" = false)
    ∧ (memberB r.headers "X-Device-Id" = false →
      memberB (prepareBackendHeaders token localUrl r) "X-Device-Id" = false) := by
  have hcopy := memberB_copyLoop_absent r.headers
  refine ⟨?_, ?_, ?_, ?_⟩
  · intro hb habs
    unfold prepareBackendHeaders
    rw [memberB_setH]
    simp only [hb, Bool.not_true, Bool.false_eq_true, if_false]
    rw [hcopy "X-Access-Token" habs]
    decide
  · intro tok hb htok hne
    unfold prepareBackendHeaders
    subst htok
    have hne2 : (tok == "") = false := by simpa using hne
    simp only [hb, Bool.not_false, if_true, hne2, Bool.not_false]
    rw [lookupL_setH_ne _ _ _ _ (by decide)]
    exact lookupL_setH_self _ _ _
  · intro hb htok habs
    unfold prepareBackendHeaders
    subst htok
    simp only [hb, Bool.not_false, if_true]
    rw [memberB_setH, hcopy "X-Access-Token" habs]
    decide
  · intro habs
    unfold prepareBackendHeaders
    rw [memberB_setH]
    by_cases hb : isBrowser (uaOf r) = true
    · simp only [hb, Bool.not_true, Bool.false_eq_true, if_false]
      rw [hcopy "X-Device-Id" habs]
      decide
    · have hb2 : isBrowser (uaOf r) = false := by
        cases h : isBrowser (uaOf r)
        · rfl
        · exact absurd h hb
      simp only [hb2, Bool.not_false, if_true]
      cases token with
      | none =>
        rw [hcopy "X-Device-Id" habs]
        decide
      | some tok =>
        by_cases htok : (tok == "") = true
        · simp only [htok, Bool.not_true, Bool.false_eq_true, if_false]
          rw [hcopy "X-Device-Id" habs]
          decide
        · have htok2 : (tok == "") = false := by
            cases h : (tok == "")
            · rfl
            · exact absurd h htok
          simp only [htok2, Bool.not_false, if_true]
          rw [memberB_setH, hcopy "X-Device-Id" habs]
          decide

/-- C3 witness: concrete instantiations of every branch of
`claim_C3_credential_routing`. -/
theorem claim_C3_credential_routing_witness :
    (isBrowser (uaOf reqAppJs) = true
      ∧ memberB reqAppJs.headers "X-Access-Token" = false
      ∧ isBrowser (uaOf reqApp) = false
      ∧ memberB reqApp.headers "X-Device-Id" = false)
    ∧ (memberB (prepareBackendHeaders (some "tok") zLocalUrl reqAppJs)
        "X-Access-Token" = false
      ∧ lookupL (prepareBackendHeaders (some "tok") zLocalUrl reqApp)
        "X-Access-Token" = some "tok"
      ∧ memberB (prepareBackendHeaders none zLocalUrl reqApp)
        "X-Access-Token" = false
      ∧ memberB (prepareBackendHeaders (some "tok") zLocalUrl reqApp)
        "X-Device-Id" = false) :=
  ⟨⟨by decide, by decide, by decide, by decide⟩,
    ⟨(claim_C3_credential_routing (some "tok") zLocalUrl reqAppJs).1
        (by decide) (by decide),
      (claim_C3_credential_routing (some "tok") zLocalUrl reqApp).2.1 "tok"
        (by decide) rfl (by decide),
      (claim_C3_credential_routing none zLocalUrl reqApp).2.2.1
        (by decide) rfl (by decide),
      (claim_C3_credential_routing (some "tok") zLocalUrl reqApp).2.2.2
        (by decide)⟩⟩

/-- C4: `stop()` on a running proxy purges the access token, the backend
URL and the cookie jar from memory, for EVERY outcome of the best-effort
logout call — success, non-200, request error/timeout, or an unexpected
exception (all of which `_logout_from_backend` absorbs internally). -/
theorem claim_C4_stop_purges (outcome : LogoutOutcome) (st : PMState)
    (hrun : st.is_running = true) :
    (pmStop outcome st).current_token = none
    ∧ (pmStop outcome st).backend_url = none
    ∧ (pmStop outcome st).cookie_jar = none
    ∧ (pmStop outcome st).is_running = false := by
  unfold pmStop
  simp [hrun]

/-- C4 witness: a running state with stored credentials, stopped while the
logout request errors out, still ends up purged. -/
theorem claim_C4_stop_purges_witness :
    ({ is_running := true, current_token := some "tok",
       backend_url := some "https://b", cookie_jar := some "jar",
       listenerBound := true, last_error_type := none } : PMState).is_running = true
    ∧ ((pmStop .requestError
        { is_running := true, current_token := some "tok",
          backend_url := some "https://b", cookie_jar := some "jar",
          listenerBound := true, last_error_type := none }).current_token = none
      ∧ (pmStop .requestError
        { is_running := true, current_token := some "tok",
          backend_url := some "https://b", cookie_jar := some "jar",
          listenerBound := true, last_error_type := none }).backend_url = none
      ∧ (pmStop .requestError
        { is_running := true, current_token := some "tok",
          backend_url := some "https://b", cookie_jar := some "jar",
          listenerBound := true, last_error_type := none }).cookie_jar = none
      ∧ (pmStop .requestError
        { is_running := true, current_token := some "tok",
          backend_url := some "https://b", cookie_jar := some "jar",
          listenerBound := true, last_error_type := none }).is_running = false) :=
  ⟨rfl, claim_C4_stop_purges .requestError _ rfl⟩

/-- Environment in which everything external succeeds but the host device
identifier could NOT be derived (`deviceIdAvailable := false`). -/
def envNoDeviceId : StartEnv :=
  { portAvailable := true, processFound := false, killOk := false,
    portFreeAfterKill := false, serverStarts := true, authOk := true,
    logoutOutcome := .ok200, deviceIdAvailable := false }

/-- C9 counterexample: `start` never consults the device identifier — in an
environment where no device identifier can be derived it still returns
true and binds the listener, so the claimed device-identity guard does not
exist in the code. -/
theorem claim_C9_counterexample :
    (pmStart envNoDeviceId pmInit "https://backend.example" (some "tok")).1 = true
    ∧ (pmStart envNoDeviceId pmInit "https://backend.example"
        (some "tok")).2.listenerBound = true
    ∧ envNoDeviceId.deviceIdAvailable = false := by
  decide

/-- C9 amended: `start` returns false without binding a listener when the
proxy is already running, when the token is empty or absent, or when the
backend URL is empty — the device identifier plays no role.  In particular
an empty token leaves the state (and thus the unbound listener) untouched. -/
theorem claim_C9_start_guards (env : StartEnv) (st : PMState) (url : String)
    (token : Option String) :
    (st.is_running = true → pmStart env st url token = (false, st))
    ∧ (tokTruthy token = false → pmStart env st url token = (false, st))
    ∧ (url = "" → pmStart env st url token = (false, st))
    ∧ ((pmStart env pmInit url (some "")).1 = false
      ∧ (pmStart env pmInit url (some "")).2.listenerBound = false) := by
  refine ⟨?_, ?_, ?_, ?_⟩
  · intro hrun
    unfold pmStart
    simp [hrun]
  · intro htok
    unfold pmStart
    rcases h : st.is_running
    · simp [htok]
    · simp [h]
  · intro hurl
    subst hurl
    unfold pmStart
    rcases h : st.is_running
    · rcases ht : tokTruthy token
      · simp [ht]
      · simp [h, ht]
    · simp [h]
  · constructor
    · unfold pmStart
      rcases h : pmInit.is_running
      · simp [tokTruthy]
      · simp [pmInit] at h
    · unfold pmStart
      rcases h : pmInit.is_running
      · simp [tokTruthy, pmInit]
      · simp [pmInit] at h

/-- C9 witness: the guards fire at concrete instantiations. -/
theorem claim_C9_start_guards_witness :
    (({ pmInit with is_running := true } : PMState).is_running = true
      ∧ tokTruthy (some "") = false
      ∧ ("" : String) = "")
    ∧ (pmStart envNoDeviceId { pmInit with is_running := true }
        "https://b" (some "tok") = (false, { pmInit with is_running := true })
      ∧ pmStart envNoDeviceId pmInit "https://b" (some "") = (false, pmInit)
      ∧ pmStart envNoDeviceId pmInit "" (some "tok") = (false, pmInit)
      ∧ (pmStart envNoDeviceId pmInit "https://b" (some "")).1 = false) :=
  ⟨⟨rfl, by decide, rfl⟩,
    ⟨(claim_C9_start_guards envNoDeviceId { pmInit with is_running := true }
        "https://b" (some "tok")).1 rfl,
      (claim_C9_start_guards envNoDeviceId pmInit "https://b" (some "")).2.1
        (by decide),
      (claim_C9_start_guards envNoDeviceId pmInit "" (some "tok")).2.2.1 rfl,
      ((claim_C9_start_guards envNoDeviceId pmInit "https://b" (some "")).2.2.2).1⟩⟩

/-- C10: when `start` passes the empty-token and empty-URL guards the token
and the backend URL are stored in memory immediately; if the port conflict
cannot be resolved, or the listener does not come up in time, `start`
returns false with those credentials STILL stored (no purge runs on these
paths), and `stop()` on a non-running manager returns immediately without
clearing anything. -/
theorem claim_C10_start_failure_keeps_credentials (env : StartEnv)
    (st : PMState) (url tok : String)
    (hnr : st.is_running = false) (htok : ¬ tok = "") (hurl : ¬ url = "") :
    (portResolved env = false →
      (pmStart env st url (some tok)).1 = false
      ∧ (pmStart env st url (some tok)).2.current_token = some tok
      ∧ (pmStart env st url (some tok)).2.backend_url = some url
      ∧ (pmStart env st url (some tok)).2.listenerBound = st.listenerBound)
    ∧ (portResolved env = true → env.serverStarts = false →
      (pmStart env st url (some tok)).1 = false
      ∧ (pmStart env st url (some tok)).2.current_token = some tok
      ∧ (pmStart env st url (some tok)).2.backend_url = some url
      ∧ (pmStart env st url (some tok)).2.listenerBound = st.listenerBound)
    ∧ (∀ (outcome : LogoutOutcome) (s : PMState),
      s.is_running = false → pmStop outcome s = s) := by
  have htt : tokTruthy (some tok) = true := by simpa [tokTruthy] using htok
  have hurlb : (url == "") = false := by simpa using hurl
  refine ⟨?_, ?_, ?_⟩
  · intro hport
    unfold pmStart
    simp [hnr, htt, hurlb, hport]
  · intro hport hserver
    unfold pmStart
    simp [hnr, htt, hurlb, hport, hserver]
  · intro outcome s hs
    unfold pmStop
    simp [hs]

/-- C10 witness: unresolvable port conflict and listener timeout at
concrete inputs, both keeping the credentials in memory. -/
theorem claim_C10_start_failure_keeps_credentials_witness :
    ((pmInit.is_running = false ∧ ¬ ("tok" : String) = "" ∧ ¬ ("https://b" : String) = "")
      ∧ portResolved { envNoDeviceId with portAvailable := false } = false
      ∧ ({ envNoDeviceId with serverStarts := false } : StartEnv).serverStarts = false)
    ∧ ((pmStart { envNoDeviceId with portAvailable := false } pmInit
          "https://b" (some "tok")).2.current_token = some "tok"
      ∧ (pmStart { envNoDeviceId with serverStarts := false } pmInit
          "https://b" (some "tok")).2.current_token = some "tok"
      ∧ pmStop .ok200 pmInit = pmInit) :=
  ⟨⟨⟨rfl, by decide, by decide⟩, by decide, rfl⟩,
    ⟨((claim_C10_start_failure_keeps_credentials
          { envNoDeviceId with portAvailable := false } pmInit "https://b" "tok"
          rfl (by decide) (by decide)).1 (by decide)).2.1,
      ((claim_C10_start_failure_keeps_credentials
          { envNoDeviceId with serverStarts := false } pmInit "https://b" "tok"
          rfl (by decide) (by decide)).2.1 (by decide) rfl).2.1,
      (claim_C10_start_failure_keeps_credentials envNoDeviceId pmInit
          "https://b" "tok" rfl (by decide) (by decide)).2.2 .ok200 pmInit rfl⟩⟩

end Zenzefi
